import Mathlib

/-!
Verification development for the foundry-observability-demo repository.

The Python sources are shallowly embedded as executable Lean definitions:
pure helpers become Lean functions, environment variables become explicit
`Option String` fields, and the external effects (JWKS verification, the
search backend, the completion backend, random safety results) become
oracle parameters holding the outcome the external call would produce.
Python exceptions are modelled as explicit error values threaded along the
same control flow as the `try`/`except` blocks of the source.
-/

set_option autoImplicit false

/-- Truthiness-carrying scalar values, as far as the telemetry helpers
inspect them: Python `None`, booleans, integers and strings.  (Floats do
not occur in any claim; latency values are treated as integers of
milliseconds where they appear at all.) -/
inductive Value where
  | none
  | bool (b : Bool)
  | int (n : Int)
  | str (s : String)
  deriving DecidableEq, Repr

/-- Python truthiness for the `Value` scalars: `None`, `False`, `0` and
the empty string are falsy. -/
def Value.truthy : Value → Bool
  | .none => false
  | .bool b => b
  | .int n => n != 0
  | .str s => s ≠ ""

/-- Decides whether `needle` occurs as a contiguous run inside `hay`;
this models Python's `sub in s` substring test on the character lists. -/
def containsSub (needle : List Char) : List Char → Bool
  | [] => needle.isEmpty
  | c :: t => needle.isPrefixOf (c :: t) || containsSub needle t

/-- Python `str.lower()`, restricted to the ASCII range the configuration
values use, computed on the character list so the kernel can evaluate
it. -/
def strLower (s : String) : String := String.mk (s.data.map Char.toLower)

/-- src/api/telemetry.py line 12: sensitive field names that should never
be logged. -/
def SENSITIVE_FIELDS : List String := ["content", "message", "query", "text"]

/-- src/api/telemetry.py `add_span_attributes`: when the span is recording,
forwards to `span.set_attribute` exactly the entries whose value is truthy
and whose lower-cased key contains no member of `SENSITIVE_FIELDS` as a
substring.  The returned list is the mapping that reaches the span. -/
def add_span_attributes (recording : Bool) (attributes : List (String × Value)) :
    List (String × Value) :=
  if recording then
    attributes.filter fun kv =>
      kv.2.truthy && !(SENSITIVE_FIELDS.any fun s => containsSub s.data (strLower kv.1).data)
  else []

/-- src/app/observability.py line 80: the exact-match denylist used by
`add_event_metadata` and `set_span_metadata`. -/
def EVENT_DENYLIST : List String := ["prompt", "response", "raw_text", "content", "message"]

/-- src/app/observability.py `add_event_metadata`: keeps exactly the
metadata entries whose key is not one of the five denylisted names, and
attaches the result to the span event.  The returned list is the attribute
mapping handed to `span.add_event`. -/
def add_event_metadata (metadata : List (String × Value)) : List (String × Value) :=
  metadata.filter fun kv => !(EVENT_DENYLIST.contains kv.1)

/-- The union denylist named by the spec (§4.5): `content`, `message`,
`query`, `text`, `prompt`, `response`, `raw_text`.  Modelled from the
spec's words, for comparison with the two source-level filters. -/
def specDenylist : List String :=
  ["content", "message", "query", "text", "prompt", "response", "raw_text"]

/-- Token usage record returned by the simulated LLM call
(src/app/llm.py lines 57-59). -/
structure TokenUsage where
  prompt : Nat
  completion : Nat
  total : Nat
  deriving DecidableEq, Repr

/-- Result of `LLMClient.call_llm` (src/app/llm.py): simulated response
text plus token usage.  The latency measurement is wall-clock and is not
part of the model. -/
structure LLMResponse where
  response : String
  model : String
  tokens : TokenUsage
  deriving DecidableEq, Repr

/-- src/app/llm.py `LLMClient.call_llm`: the simulated completion.
`completion_tokens = 150`, `prompt_tokens = len(prompt) // 4`,
`total_tokens = prompt_tokens + completion_tokens`; the context argument
only affects span attributes, never the token arithmetic. -/
def call_llm (prompt : String) (context : Option String) (model : String) : LLMResponse :=
  let _ := context
  let completion_tokens := 150
  let prompt_tokens := prompt.length / 4
  { response := "Response to query (length: " ++ toString prompt.length ++ " chars)"
    model := model
    tokens :=
      { prompt := prompt_tokens
        completion := completion_tokens
        total := prompt_tokens + completion_tokens } }

/-- Result of `LLMClient.check_safety` (src/app/llm.py lines 146-150).
The 10% random block is an external outcome, so the whole result is an
oracle input to the pipeline. -/
structure SafetyResult where
  is_safe : Bool
  categories : List String
  deriving DecidableEq, Repr

/-- A document of the simulated store in src/app/rag.py. -/
structure Doc where
  id : String
  content : String
  category : String
  deriving DecidableEq, Repr

/-- src/app/rag.py `RAGClient.build_context`: joins
`"[category] content"` lines with blank-line separators. -/
def build_context (documents : List Doc) : String :=
  String.intercalate "\n\n" (documents.map fun d => "[" ++ d.category ++ "] " ++ d.content)

/-- Observable calls made by `GenAIApp.process_request`, in program order:
the metric-counter increments and the three client invocations. -/
inductive CallEvent where
  | requestCounterAdd
  | retrieveDocuments
  | checkSafety
  | callLLM
  | errorCounterAdd (errorType : String)
  | tokenCounterAdd (amount : Nat) (tokenType : String)
  deriving DecidableEq, Repr

/-- Outcome of `GenAIApp.process_request`: either the blocked dictionary
of src/app/main.py lines 100-104 or the success dictionary of lines
157-164 (latency fields omitted, they are wall-clock). -/
inductive PRResult where
  | blocked (reason : String) (categories : List String)
  | success (response : String) (model : String) (tokens : TokenUsage) (ragUsed : Bool)
  deriving DecidableEq, Repr

/-- src/app/main.py `GenAIApp.process_request`, with the retrieval result
and the safety result supplied as oracles (both are produced by simulated
randomness in the source).  Returns the outcome together with the ordered
trace of counter increments and client calls. -/
def process_request (user_query : String) (use_rag : Bool)
    (docs : List Doc) (safety : SafetyResult) : PRResult × List CallEvent :=
  let ragEvents := if use_rag then [CallEvent.retrieveDocuments] else []
  let context : Option String := if use_rag then some (build_context docs) else none
  let base := CallEvent.requestCounterAdd :: ragEvents ++ [CallEvent.checkSafety]
  if safety.is_safe then
    let llm := call_llm user_query context "gpt-4"
    (PRResult.success llm.response llm.model llm.tokens use_rag,
      base ++
        [CallEvent.callLLM,
         CallEvent.tokenCounterAdd llm.tokens.total "total",
         CallEvent.tokenCounterAdd llm.tokens.prompt "prompt",
         CallEvent.tokenCounterAdd llm.tokens.completion "completion"])
  else
    (PRResult.blocked "Content blocked by safety filter" safety.categories,
      base ++ [CallEvent.errorCounterAdd "safety_blocked"])

/-- The environment variables read by src/api: `none` models an unset
variable. -/
structure Env where
  jwtValidationEnabled : Option String
  entraIssuer : Option String
  entraAudience : Option String
  ragEnabled : Option String
  azureSearchTopK : Option String
  deriving DecidableEq, Repr

/-- Python `os.getenv(name, default)`: the stored value, or the default
when the variable is unset. -/
def getenvD (v : Option String) (d : String) : String := v.getD d

/-- The enabled-check `os.getenv("JWT_VALIDATION_ENABLED", "true").lower()
== "true"` shared by src/api/auth.py and src/api/chat.py. -/
def jwtValidationOn (env : Env) : Bool :=
  strLower (getenvD env.jwtValidationEnabled "true") == "true"

/-- The flag `os.getenv("RAG_ENABLED", "false").lower() == "true"` of
src/api/chat.py line 308. -/
def ragEnabledGlobal (env : Env) : Bool :=
  strLower (getenvD env.ragEnabled "false") == "true"

/-- Python exceptions distinguished by the handlers of src/api/chat.py:
`ValueError`, `jwt.InvalidTokenError`, and everything else. -/
inductive PyErr where
  | valueError (msg : String)
  | invalidTokenError (msg : String)
  | otherError (msg : String)
  deriving DecidableEq, Repr

/-- The decoded token payload, as far as the pipeline reads it
(`payload.get("sub")`). -/
structure Claims where
  sub : Option String
  deriving DecidableEq, Repr

/-- Oracle for the external part of token verification (JWKS key fetch
plus `jwt.decode`): a decoded payload, a `jwt.InvalidTokenError`, or any
other exception. -/
inductive VerifyOutcome where
  | ok (payload : Claims)
  | invalidToken (msg : String)
  | failure (msg : String)
  deriving DecidableEq, Repr

/-- src/api/auth.py `validate_jwt_token`: returns the anonymous claim when
validation is disabled; raises `ValueError` when enabled with
`ENTRA_ISSUER` or `ENTRA_AUDIENCE` unset or empty; otherwise the outcome
of key resolution and decoding (the `verify` oracle). -/
def validate_jwt_token (env : Env) (verify : String → VerifyOutcome) (token : String) :
    Except PyErr Claims :=
  if !jwtValidationOn env then
    .ok { sub := some "anonymous" }
  else if (getenvD env.entraIssuer "").isEmpty || (getenvD env.entraAudience "").isEmpty then
    .error (.valueError "JWT validation enabled but ENTRA_ISSUER or ENTRA_AUDIENCE not configured")
  else
    match verify token with
    | .ok payload => .ok payload
    | .invalidToken msg => .error (.invalidTokenError msg)
    | .failure msg => .error (.otherError msg)

/-- Python `str.split()` with no separator: split on runs of whitespace,
discarding empty parts; `acc` accumulates the current word reversed. -/
def splitWsAux : List Char → List Char → List String
  | [], acc => if acc.isEmpty then [] else [String.mk acc.reverse]
  | c :: t, acc =>
    if c.isWhitespace then
      if acc.isEmpty then splitWsAux t [] else String.mk acc.reverse :: splitWsAux t []
    else splitWsAux t (c :: acc)

/-- Python `str.split()` with no separator. -/
def pySplitWs (s : String) : List String := splitWsAux s.data []

/-- src/api/auth.py `extract_bearer_token`: whitespace-split the header,
require exactly two parts with a case-insensitive `bearer` scheme.  (The
leading `if not authorization_header` guard is subsumed: an empty or
all-whitespace header splits to fewer than two parts.) -/
def extract_bearer_token (authorizationHeader : Option String) : Option String :=
  match authorizationHeader with
  | Option.none => Option.none
  | some s =>
    match pySplitWs s with
    | [scheme, tok] => if strLower scheme == "bearer" then some tok else Option.none
    | _ => Option.none

/-- The observable parts of a `func.HttpResponse`: status code, the JSON
body fields the claims mention, and the `X-Correlation-ID` header. -/
structure HttpResponse where
  status : Nat
  errorField : Option String
  messageField : Option String
  answer : Option String
  bodyCorrelationId : Option String
  headerCorrelationId : Option String
  deriving DecidableEq, Repr

/-- An error response of src/api/chat.py: every one of them carries the
correlation id in the body and in the `X-Correlation-ID` header. -/
def errResponse (status : Nat) (err msg cid : String) : HttpResponse :=
  { status := status
    errorField := some err
    messageField := some msg
    answer := Option.none
    bodyCorrelationId := some cid
    headerCorrelationId := some cid }

/-- The 401 bodies of src/api/chat.py lines 229-238 and 246-255. -/
def unauthorizedResponse (msg cid : String) : HttpResponse :=
  errResponse 401 "Unauthorized" msg cid

/-- The `except ValueError` handler of src/api/chat.py lines 336-348. -/
def configErrorResponse (cid : String) : HttpResponse :=
  errResponse 500 "Service Configuration Error" "Service is not properly configured" cid

/-- The `except Exception` handler of src/api/chat.py lines 350-362. -/
def internalErrorResponse (cid : String) : HttpResponse :=
  errResponse 500 "Internal Server Error" "An unexpected error occurred" cid

/-- The 400 body of src/api/chat.py lines 277-286. -/
def badMessageResponse (cid : String) : HttpResponse :=
  errResponse 400 "Bad Request" "Missing or invalid 'message' field in request body" cid

/-- src/api/chat.py line 21. -/
def MAX_MESSAGE_LENGTH : Nat := 4000

/-- Outcome of the authentication section of the chat endpoint
(src/api/chat.py lines 223-255): an immediate 401 response, an exception
left to the outer handlers, or fall-through with the payload bound by the
`if token:` branch (none when no token was presented). -/
inductive AuthStep where
  | respond (r : HttpResponse)
  | raiseErr (e : PyErr)
  | proceed (payload : Option Claims)
  deriving DecidableEq, Repr

/-- The authentication section of src/api/chat.py `chat`: 401 when the
token is missing while validation is enabled (the source's
`if not token and ...` guard, which is vacuous when a token is present);
otherwise, when a token is present, `validate_jwt_token` with only
`jwt.InvalidTokenError` translated to a 401 and every other exception
propagating to the outer handlers. -/
def authPhase (env : Env) (verify : String → VerifyOutcome) (authHeader : Option String)
    (cid : String) : AuthStep :=
  match extract_bearer_token authHeader with
  | Option.none =>
    if jwtValidationOn env then
      .respond (unauthorizedResponse "Missing or invalid authorization token" cid)
    else .proceed Option.none
  | some t =>
    match validate_jwt_token env verify t with
    | .ok payload => .proceed (some payload)
    | .error (.invalidTokenError _) =>
      .respond (unauthorizedResponse "Invalid authorization token" cid)
    | .error e => .raiseErr e

/-- The `message` field of the parsed request body: absent, present with a
non-string value, or a string. -/
inductive MsgField where
  | absent
  | notString
  | str (s : String)
  deriving DecidableEq, Repr

/-- A chat request body: unparseable JSON, or an object with its `message`
field and the truthiness of its `enableRag` field. -/
inductive ReqBody where
  | malformed
  | obj (message : MsgField) (enableRag : Bool)
  deriving DecidableEq, Repr

/-- A raw result from the Azure AI Search iteration in
src/api/chat.py lines 102-111: `result.get` with defaults (the float
relevance score is not modelled; no claim touches it). -/
structure SearchResult where
  id : Option String
  content : Option String
  deriving DecidableEq, Repr

/-- A retrieved document as built by `perform_rag_search`. -/
structure RagDoc where
  id : String
  content : String
  deriving DecidableEq, Repr

/-- Oracle for the search section guarded by `try` in `perform_rag_search`
(client initialization plus the search call): the results, or any raised
exception. -/
inductive SearchOutcome where
  | ok (results : List SearchResult)
  | err (msg : String)
  deriving DecidableEq, Repr

/-- src/api/chat.py `perform_rag_search`: maps each result to its document
dictionary, and returns `[]` on any exception (including client
initialization / configuration failures). -/
def perform_rag_search (backend : SearchOutcome) : List RagDoc :=
  match backend with
  | .err _ => []
  | .ok results =>
    results.map fun r => { id := r.id.getD "unknown", content := r.content.getD "" }

/-- Oracle for `create_chat_completion` (client initialization plus the
completion call): the answer with token usage, a `ValueError` (for example
`AZURE_OPENAI_ENDPOINT` not configured), or any other exception. -/
inductive CompletionOutcome where
  | ok (answer : String) (promptTokens completionTokens totalTokens : Nat)
  | raiseValueError (msg : String)
  | raiseOther (msg : String)
  deriving DecidableEq, Repr

/-- Reads a nonempty all-digit character list as a natural number;
`none` otherwise. -/
def digitsVal (acc : Nat) : List Char → Option Nat
  | [] => some acc
  | c :: t => if c.isDigit then digitsVal (acc * 10 + (c.toNat - 48)) t else Option.none

/-- Nonempty digit run to a natural number. -/
def parseDigits : List Char → Option Nat
  | [] => Option.none
  | c :: t => digitsVal 0 (c :: t)

/-- Python `int(s)` on a decimal string: strip surrounding whitespace,
allow one sign, then digits; `none` models the `ValueError` raise.
(Digit-group underscores, accepted by CPython, are not modelled; no claim
exercises them.) -/
def pyInt (s : String) : Option Int :=
  let t := (((s.data.dropWhile Char.isWhitespace).reverse.dropWhile Char.isWhitespace).reverse)
  match t with
  | '-' :: rest => (parseDigits rest).map fun n => -(n : Int)
  | '+' :: rest => (parseDigits rest).map fun n => (n : Int)
  | _ => (parseDigits t).map fun n => (n : Int)

/-- The optional RAG block of src/api/chat.py lines 305-312: when both
the per-request flag and the global flag are on, parse
`AZURE_SEARCH_TOP_K` with `int` (whose failure raises `ValueError`) and
run `perform_rag_search`; otherwise the context stays `None` (modelled as
`[]`, which is how an absent context reaches the completion call). -/
def ragPhase (env : Env) (enableRag : Bool) (backend : SearchOutcome) :
    Except PyErr (List RagDoc) :=
  if enableRag && ragEnabledGlobal env then
    match pyInt (getenvD env.azureSearchTopK "3") with
    | Option.none => .error (.valueError "invalid literal for int() with base 10")
    | some _ => .ok (perform_rag_search backend)
  else .ok []

/-- The 200 body of src/api/chat.py lines 322-334 (usage numbers are part
of the completion oracle and not replayed in the model body). -/
def okAnswerResponse (answer cid : String) : HttpResponse :=
  { status := 200
    errorField := Option.none
    messageField := Option.none
    answer := some answer
    bodyCorrelationId := some cid
    headerCorrelationId := some cid }

/-- The `create_chat_completion` call site: success yields the 200
response; a `ValueError` (for example a missing `AZURE_OPENAI_ENDPOINT`)
reaches the `except ValueError` handler; any other exception reaches the
`except Exception` handler. -/
def completionResponse (comp : CompletionOutcome) (cid : String) : HttpResponse :=
  match comp with
  | .ok answer _ _ _ => okAnswerResponse answer cid
  | .raiseValueError _ => configErrorResponse cid
  | .raiseOther _ => internalErrorResponse cid

/-- The tail of src/api/chat.py `chat` after validation: the optional RAG
block, then `create_chat_completion`, with `ValueError` and generic
exceptions routed to the outer handlers.  The retrieved documents only
shape the prompt, so they influence the response solely through the
completion oracle. -/
def ragAndComplete (env : Env) (enableRag : Bool) (backend : SearchOutcome)
    (comp : CompletionOutcome) (cid : String) : HttpResponse :=
  match ragPhase env enableRag backend with
  | .error (.valueError _) => configErrorResponse cid
  | .error _ => internalErrorResponse cid
  | .ok _ => completionResponse comp cid

/-- src/api/chat.py `chat`: the full request pipeline.  The correlation id
(`uuid.uuid4()`) is passed in; `verify`, `backend` and `comp` are the
oracles for the three external calls. -/
def chat (env : Env) (verify : String → VerifyOutcome) (authHeader : Option String)
    (body : ReqBody) (backend : SearchOutcome) (comp : CompletionOutcome)
    (cid : String) : HttpResponse :=
  match authPhase env verify authHeader cid with
  | .respond r => r
  | .raiseErr (.valueError _) => configErrorResponse cid
  | .raiseErr _ => internalErrorResponse cid
  | .proceed _ =>
    match body with
    | .malformed => errResponse 400 "Bad Request" "Invalid JSON in request body" cid
    | .obj msg enableRag =>
      match msg with
      | .absent => badMessageResponse cid
      | .notString => badMessageResponse cid
      | .str s =>
        if s.data.isEmpty then badMessageResponse cid
        else if s.length > MAX_MESSAGE_LENGTH then
          errResponse 400 "Bad Request"
            ("Message exceeds maximum length of " ++ toString MAX_MESSAGE_LENGTH ++ " characters")
            cid
        else ragAndComplete env enableRag backend comp cid

/-- src/api/health.py `health`: always 200 with the correlation id in the
body and the `X-Correlation-ID` header. -/
def health (cid : String) : HttpResponse :=
  { status := 200
    errorField := Option.none
    messageField := Option.none
    answer := Option.none
    bodyCorrelationId := some cid
    headerCorrelationId := some cid }

/-- Python `str.replace(pat, "")` for a nonempty pattern: removes every
occurrence of `pat`, scanning left to right.  The fuel argument (the
length of the scanned list) makes the recursion structural: every step
consumes at least one character. -/
def removeAllFuel (pat : List Char) : Nat → List Char → List Char
  | 0, l => l
  | _ + 1, [] => []
  | fuel + 1, c :: t =>
    if pat ≠ [] && pat.isPrefixOf (c :: t) then
      removeAllFuel pat fuel (t.drop (pat.length - 1))
    else c :: removeAllFuel pat fuel t

/-- Python `str.replace(pat, "")` for a nonempty pattern. -/
def removeAll (pat l : List Char) : List Char := removeAllFuel pat l.length l

/-- The mock user info of src/backend/api/function_app.py
`validate_token`. -/
structure BackendUser where
  user_id : String
  name : String
  deriving DecidableEq, Repr

/-- src/backend/api/function_app.py `validate_token`: require the header
to start with `Bearer ` (case-sensitive), strip that prefix via
`str.replace`, and reject an empty remainder; on success return the demo
user. -/
def backend_validate_token (authHeader : Option String) : Option BackendUser :=
  let h := authHeader.getD ""
  if !("Bearer ".data.isPrefixOf h.data) then Option.none
  else
    let token := String.mk (removeAll "Bearer ".data h.data)
    if token.data.isEmpty then Option.none
    else some { user_id := "demo_user", name := "Demo User" }

/-- A raw search result of the backend variant (`select=["content",
"title"]`). -/
structure BSearchResult where
  title : Option String
  content : Option String
  deriving DecidableEq, Repr

/-- Oracle for the `try` block of the backend `search_documents`
(credential, client construction and the search call). -/
inductive BSearchOutcome where
  | ok (results : List BSearchResult)
  | err (msg : String)
  deriving DecidableEq, Repr

/-- A document dictionary built by the backend `search_documents`. -/
structure BackendDoc where
  title : String
  content : String
  deriving DecidableEq, Repr

/-- src/backend/api/function_app.py `search_documents`: maps the results
to title/content dictionaries and returns `[]` on any exception. -/
def search_documents (backend : BSearchOutcome) : List BackendDoc :=
  match backend with
  | .err _ => []
  | .ok results =>
    results.map fun r => { title := r.title.getD "", content := r.content.getD "" }

/-- One entry of the `messages` array of the backend request body. -/
structure BMsg where
  role : String
  content : String
  deriving DecidableEq, Repr

/-- A backend chat request body: unparseable JSON, or an object with its
`messages` array and the truthiness of its `use_rag` field. -/
inductive BackendBody where
  | malformed
  | obj (messages : List BMsg) (useRag : Bool)
  deriving DecidableEq, Repr

/-- Oracle for the backend `generate_chat_response` (credential, client,
completion call): the assistant message with usage, or any raised
exception. -/
inductive GenOutcome where
  | ok (message : String) (promptTokens completionTokens totalTokens : Nat)
  | err (msg : String)
  deriving DecidableEq, Repr

/-- A backend response that carries no correlation id at all: its 401 and
400 bodies and its health body are built without the id and without the
`X-Correlation-ID` header. -/
def backendNoCidResponse (status : Nat) (err : String) : HttpResponse :=
  { status := status
    errorField := some err
    messageField := Option.none
    answer := Option.none
    bodyCorrelationId := Option.none
    headerCorrelationId := Option.none }

/-- The backend `except Exception` handler: 500 with
`{"error": "Internal server error", "correlation_id": cid}` and the
`X-Correlation-ID` header. -/
def backendErrorResponse (cid : String) : HttpResponse :=
  { status := 500
    errorField := some "Internal server error"
    messageField := Option.none
    answer := Option.none
    bodyCorrelationId := some cid
    headerCorrelationId := some cid }

/-- src/backend/api/function_app.py `chat`: the near-identical second
pipeline.  Authentication failure and the two 400 validation failures
respond without the correlation id and without the `X-Correlation-ID`
header; only the 200 and 500 outcomes carry both.  A missing
`AZURE_OPENAI_ENDPOINT` raises and lands in the generic handler; the
retrieved documents feed the completion call, whose outcome is the `gen`
oracle, and their count is also echoed in the 200 body (a field not
modelled here). -/
def backendChat (authHeader : Option String) (body : BackendBody)
    (openaiEndpoint _searchEndpoint : Option String)
    (_searchB : BSearchOutcome) (gen : GenOutcome) (cid : String) : HttpResponse :=
  match backend_validate_token authHeader with
  | Option.none => backendNoCidResponse 401 "Unauthorized"
  | some _ =>
    match body with
    | .malformed => backendNoCidResponse 400 "Invalid JSON in request body"
    | .obj messages _ =>
      if messages.isEmpty then backendNoCidResponse 400 "No messages provided"
      else
        match openaiEndpoint with
        | Option.none => backendErrorResponse cid
        | some _ =>
          match gen with
          | .err _ => backendErrorResponse cid
          | .ok message _ _ _ => okAnswerResponse message cid

/-- src/backend/api/function_app.py `health`: 200 `{"status": "healthy"}`
with no correlation id and no `X-Correlation-ID` header. -/
def backendHealth : HttpResponse :=
  { status := 200
    errorField := Option.none
    messageField := Option.none
    answer := Option.none
    bodyCorrelationId := Option.none
    headerCorrelationId := Option.none }

/-- C9: for every prompt string and every context, `call_llm` returns a
token-usage record with `prompt = len(prompt) / 4` (integer floor),
`completion = 150`, and `total = prompt + completion`. -/
theorem C9_token_usage_arithmetic :
    ∀ (p : String) (context : Option String) (model : String),
      (call_llm p context model).tokens.prompt = p.length / 4 ∧
      (call_llm p context model).tokens.completion = 150 ∧
      (call_llm p context model).tokens.total =
        (call_llm p context model).tokens.prompt +
          (call_llm p context model).tokens.completion := by
  intro p context model
  exact ⟨rfl, rfl, rfl⟩

/-- C10: `add_span_attributes` drops every attribute whose value is falsy
(`None`, `0`, `False`, the empty string), whatever its key: such a pair is
never part of the mapping set on the span. -/
theorem C10_falsy_values_dropped :
    ∀ (recording : Bool) (attributes : List (String × Value)) (k : String) (v : Value),
      v.truthy = false → (k, v) ∉ add_span_attributes recording attributes := by
  intro recording attributes k v hv hmem
  unfold add_span_attributes at hmem
  split at hmem
  · have h2 := (List.mem_filter.mp hmem).2
    rw [hv] at h2
    simp at h2
  · simp at hmem

/-- C10 witness: a zero token count under a non-sensitive key is dropped
by a recording span. -/
theorem C10_falsy_values_dropped_witness :
    Value.truthy (Value.int 0) = false ∧
    ("llm.tokens", Value.int 0) ∉ add_span_attributes true [("llm.tokens", Value.int 0)] :=
  ⟨by decide, C10_falsy_values_dropped true [("llm.tokens", Value.int 0)]
    "llm.tokens" (Value.int 0) (by decide)⟩

/-- C1 counterexample: the spec's seven-key denylist is not enforced by
either operation.  `add_span_attributes` forwards the denylisted keys
`prompt` and `response` (its substring list has only `content`,
`message`, `query`, `text`, which does catch `raw_text`), and
`add_event_metadata` forwards the denylisted keys `query` and `text`
(its exact-match list has only `prompt`, `response`, `raw_text`,
`content`, `message`). -/
theorem C1_prompt_and_query_forwarded :
    add_span_attributes true [("prompt", Value.str "hello")] =
      [("prompt", Value.str "hello")] ∧
    add_span_attributes true [("response", Value.str "hi")] =
      [("response", Value.str "hi")] ∧
    add_span_attributes true [("raw_text", Value.str "hi")] = [] ∧
    "prompt" ∈ specDenylist ∧
    "response" ∈ specDenylist ∧
    add_event_metadata [("query", Value.str "who")] = [("query", Value.str "who")] ∧
    add_event_metadata [("text", Value.str "who")] = [("text", Value.str "who")] ∧
    "query" ∈ specDenylist ∧
    "text" ∈ specDenylist := by
  refine ⟨by decide, by decide, by decide, by decide, by decide, by decide, by decide,
    by decide, by decide⟩

/-- C1 amended: each filter enforces its own denylist.  Every entry that
`add_span_attributes` forwards has a lower-cased key containing none of
`content`, `message`, `query`, `text` as a substring, and every entry that
`add_event_metadata` forwards has a key outside
`prompt`, `response`, `raw_text`, `content`, `message`. -/
theorem C1_each_filter_enforces_own_denylist :
    ∀ (recording : Bool) (attributes metadata : List (String × Value)),
      ((add_span_attributes recording attributes).all fun kv =>
          !(SENSITIVE_FIELDS.any fun s => containsSub s.data (strLower kv.1).data)) = true ∧
      ((add_event_metadata metadata).all fun kv => !(EVENT_DENYLIST.contains kv.1)) = true := by
  intro recording attributes metadata
  constructor
  · unfold add_span_attributes
    split
    · rw [List.all_eq_true]
      intro kv hkv
      have h2 := (List.mem_filter.mp hkv).2
      simp only [Bool.and_eq_true] at h2
      exact h2.2
    · rfl
  · rw [List.all_eq_true]
    intro kv hkv
    exact (List.mem_filter.mp hkv).2

/-- C2: when the safety check reports unsafe, `process_request` never
invokes `call_llm`, returns the blocked outcome carrying the blocked
category labels, and increments the error counter with
`error_type = "safety_blocked"`. -/
theorem C2_safety_block_skips_llm :
    ∀ (q : String) (use_rag : Bool) (docs : List Doc) (safety : SafetyResult),
      safety.is_safe = false →
      CallEvent.callLLM ∉ (process_request q use_rag docs safety).2 ∧
      (process_request q use_rag docs safety).1 =
        PRResult.blocked "Content blocked by safety filter" safety.categories ∧
      CallEvent.errorCounterAdd "safety_blocked" ∈ (process_request q use_rag docs safety).2 := by
  intro q use_rag docs safety hs
  unfold process_request
  rw [hs]
  cases use_rag <;> simp

/-- C2 witness: a concrete unsafe result with categories
`hate, violence`. -/
theorem C2_safety_block_skips_llm_witness :
    (SafetyResult.mk false ["hate", "violence"]).is_safe = false ∧
    (CallEvent.callLLM ∉
        (process_request "What?" true [] (SafetyResult.mk false ["hate", "violence"])).2 ∧
      (process_request "What?" true [] (SafetyResult.mk false ["hate", "violence"])).1 =
        PRResult.blocked "Content blocked by safety filter" ["hate", "violence"] ∧
      CallEvent.errorCounterAdd "safety_blocked" ∈
        (process_request "What?" true [] (SafetyResult.mk false ["hate", "violence"])).2) :=
  ⟨rfl, C2_safety_block_skips_llm "What?" true [] (SafetyResult.mk false ["hate", "violence"]) rfl⟩

theorem errResponse_cid (status : Nat) (e m cid : String) :
    (errResponse status e m cid).bodyCorrelationId = some cid ∧
    (errResponse status e m cid).headerCorrelationId = some cid :=
  ⟨rfl, rfl⟩

theorem authPhase_respond_cid (env : Env) (verify : String → VerifyOutcome)
    (h : Option String) (cid : String) (r : HttpResponse) :
    authPhase env verify h cid = AuthStep.respond r →
    r.bodyCorrelationId = some cid ∧ r.headerCorrelationId = some cid := by
  unfold authPhase
  intro heq
  split at heq
  · split at heq
    · cases heq
      exact ⟨rfl, rfl⟩
    · cases heq
  · split at heq
    · cases heq
    · cases heq
      exact ⟨rfl, rfl⟩
    · cases heq

theorem ragAndComplete_cid (env : Env) (enableRag : Bool) (backend : SearchOutcome)
    (comp : CompletionOutcome) (cid : String) :
    (ragAndComplete env enableRag backend comp cid).bodyCorrelationId = some cid ∧
    (ragAndComplete env enableRag backend comp cid).headerCorrelationId = some cid := by
  unfold ragAndComplete completionResponse
  split
  · exact ⟨rfl, rfl⟩
  · exact ⟨rfl, rfl⟩
  · split
    · exact ⟨rfl, rfl⟩
    · exact ⟨rfl, rfl⟩
    · exact ⟨rfl, rfl⟩

theorem chat_cid (env : Env) (verify : String → VerifyOutcome) (authHeader : Option String)
    (body : ReqBody) (backend : SearchOutcome) (comp : CompletionOutcome) (cid : String) :
    (chat env verify authHeader body backend comp cid).bodyCorrelationId = some cid ∧
    (chat env verify authHeader body backend comp cid).headerCorrelationId = some cid := by
  unfold chat
  split
  · exact authPhase_respond_cid env verify authHeader cid _ (by assumption)
  · exact ⟨rfl, rfl⟩
  · exact ⟨rfl, rfl⟩
  · split
    · exact ⟨rfl, rfl⟩
    · split
      · exact ⟨rfl, rfl⟩
      · exact ⟨rfl, rfl⟩
      · split
        · exact ⟨rfl, rfl⟩
        · split
          · exact ⟨rfl, rfl⟩
          · exact ragAndComplete_cid env _ backend comp cid

/-- C3 counterexample: the backend variant's 401 response (cited source
src/backend/api/function_app.py lines 166-199) carries the correlation id
neither in the body nor in an `X-Correlation-ID` header. -/
theorem C3_backend_401_lacks_correlation :
    (backendChat Option.none BackendBody.malformed Option.none Option.none
        (BSearchOutcome.ok []) (GenOutcome.ok "a" 1 1 2) "cid-b").status = 401 ∧
    (backendChat Option.none BackendBody.malformed Option.none Option.none
        (BSearchOutcome.ok []) (GenOutcome.ok "a" 1 1 2) "cid-b").bodyCorrelationId =
      Option.none ∧
    (backendChat Option.none BackendBody.malformed Option.none Option.none
        (BSearchOutcome.ok []) (GenOutcome.ok "a" 1 1 2) "cid-b").headerCorrelationId =
      Option.none :=
  ⟨rfl, rfl, rfl⟩

/-- C3 amended: in the src/api blueprint, every terminal response of the
chat endpoint and of the health endpoint carries the request's correlation
id both in the JSON body and in the `X-Correlation-ID` header, and the two
values are equal; the backend variant's 401/400 responses and its health
response carry neither. -/
theorem C3_api_responses_carry_correlation :
    ∀ (env : Env) (verify : String → VerifyOutcome) (authHeader : Option String)
      (body : ReqBody) (backend : SearchOutcome) (comp : CompletionOutcome) (cid : String),
      ((chat env verify authHeader body backend comp cid).bodyCorrelationId = some cid ∧
        (chat env verify authHeader body backend comp cid).headerCorrelationId = some cid ∧
        (chat env verify authHeader body backend comp cid).bodyCorrelationId =
          (chat env verify authHeader body backend comp cid).headerCorrelationId) ∧
      ((health cid).bodyCorrelationId = some cid ∧
        (health cid).headerCorrelationId = some cid) ∧
      backendHealth.bodyCorrelationId = Option.none := by
  intro env verify authHeader body backend comp cid
  have h := chat_cid env verify authHeader body backend comp cid
  exact ⟨⟨h.1, h.2, h.1.trans h.2.symm⟩, ⟨rfl, rfl⟩, rfl⟩

/-- C4: a failing retrieval backend yields an empty document list in both
variants instead of propagating, and a chat request with RAG enabled that
hits such a retrieval failure still returns 200 when the completion
succeeds. -/
theorem C4_retrieval_failure_nonfatal :
    (∀ msg, perform_rag_search (SearchOutcome.err msg) = []) ∧
    (∀ msg, search_documents (BSearchOutcome.err msg) = []) ∧
    (∀ (env : Env) (verify : String → VerifyOutcome) (h : Option String) (s : String)
       (answer : String) (pt ct tt : Nat) (cid emsg : String) (k : Int),
      jwtValidationOn env = false →
      extract_bearer_token h = Option.none →
      s.data.isEmpty = false →
      s.length ≤ MAX_MESSAGE_LENGTH →
      ragEnabledGlobal env = true →
      pyInt (getenvD env.azureSearchTopK "3") = some k →
      (chat env verify h (ReqBody.obj (MsgField.str s) true) (SearchOutcome.err emsg)
          (CompletionOutcome.ok answer pt ct tt) cid).status = 200) := by
  refine ⟨fun msg => rfl, fun msg => rfl, ?_⟩
  intro env verify h s answer pt ct tt cid emsg k hjwt hx hne hlen hrag htopk
  have hnlen : ¬ s.length > MAX_MESSAGE_LENGTH := by
    unfold MAX_MESSAGE_LENGTH at *
    omega
  unfold chat authPhase ragAndComplete ragPhase completionResponse
  rw [hx]
  simp [hjwt, hne, hnlen, hrag, htopk, okAnswerResponse]

/-- C4 witness: a concrete failing search backend with validation
disabled, RAG enabled and the default top-k. -/
theorem C4_retrieval_failure_nonfatal_witness :
    jwtValidationOn ⟨some "false", Option.none, Option.none, some "true", Option.none⟩ = false ∧
    extract_bearer_token Option.none = Option.none ∧
    "hi".data.isEmpty = false ∧
    "hi".length ≤ MAX_MESSAGE_LENGTH ∧
    ragEnabledGlobal ⟨some "false", Option.none, Option.none, some "true", Option.none⟩ = true ∧
    pyInt (getenvD (Option.none : Option String) "3") = some 3 ∧
    (chat ⟨some "false", Option.none, Option.none, some "true", Option.none⟩
        (fun _ => VerifyOutcome.invalidToken "x") Option.none
        (ReqBody.obj (MsgField.str "hi") true) (SearchOutcome.err "boom")
        (CompletionOutcome.ok "ok" 1 2 3) "w4").status = 200 := by
  refine ⟨by decide, by decide, by decide, by decide, by decide, by decide, ?_⟩
  exact C4_retrieval_failure_nonfatal.2.2
    ⟨some "false", Option.none, Option.none, some "true", Option.none⟩
    (fun _ => VerifyOutcome.invalidToken "x") Option.none "hi" "ok" 1 2 3 "w4" "boom" 3
    (by decide) (by decide) (by decide) (by decide) (by decide) (by decide)

/-- C5: a request presenting a bearer token while validation is enabled
but `ENTRA_ISSUER` or `ENTRA_AUDIENCE` is unset (or empty) fails with the
`ValueError` of `validate_jwt_token`, which the pipeline maps to the 500
`Service Configuration Error` response, not to a 401. -/
theorem C5_misconfigured_auth_maps_to_500 :
    ∀ (env : Env) (verify : String → VerifyOutcome) (h : Option String) (t : String)
      (body : ReqBody) (backend : SearchOutcome) (comp : CompletionOutcome) (cid : String),
      extract_bearer_token h = some t →
      jwtValidationOn env = true →
      ((getenvD env.entraIssuer "").isEmpty || (getenvD env.entraAudience "").isEmpty) = true →
      chat env verify h body backend comp cid = configErrorResponse cid ∧
      (configErrorResponse cid).status = 500 ∧
      (configErrorResponse cid).errorField = some "Service Configuration Error" ∧
      (configErrorResponse cid).status ≠ 401 := by
  intro env verify h t body backend comp cid hx hjwt hmiss
  have hval : validate_jwt_token env verify t = Except.error (PyErr.valueError
      "JWT validation enabled but ENTRA_ISSUER or ENTRA_AUDIENCE not configured") := by
    unfold validate_jwt_token
    rw [hjwt, hmiss]
    rfl
  have hauth : authPhase env verify h cid = AuthStep.raiseErr (PyErr.valueError
      "JWT validation enabled but ENTRA_ISSUER or ENTRA_AUDIENCE not configured") := by
    unfold authPhase
    rw [hx]
    dsimp only
    rw [hval]
  unfold chat
  rw [hauth]
  exact ⟨rfl, rfl, rfl, (by decide : (500 : Nat) ≠ 401)⟩

/-- C5 witness: token presented, validation enabled by default, both
configuration values unset. -/
theorem C5_misconfigured_auth_maps_to_500_witness :
    extract_bearer_token (some "Bearer abc") = some "abc" ∧
    jwtValidationOn ⟨Option.none, Option.none, Option.none, Option.none, Option.none⟩ = true ∧
    ((getenvD (Option.none : Option String) "").isEmpty ||
      (getenvD (Option.none : Option String) "").isEmpty) = true ∧
    (chat ⟨Option.none, Option.none, Option.none, Option.none, Option.none⟩
        (fun _ => VerifyOutcome.failure "unreachable") (some "Bearer abc")
        ReqBody.malformed (SearchOutcome.ok []) (CompletionOutcome.raiseOther "x") "w5" =
      configErrorResponse "w5" ∧
      (configErrorResponse "w5").status = 500 ∧
      (configErrorResponse "w5").errorField = some "Service Configuration Error" ∧
      (configErrorResponse "w5").status ≠ 401) := by
  refine ⟨by decide, by decide, by decide, ?_⟩
  exact C5_misconfigured_auth_maps_to_500
    ⟨Option.none, Option.none, Option.none, Option.none, Option.none⟩
    (fun _ => VerifyOutcome.failure "unreachable") (some "Bearer abc") "abc"
    ReqBody.malformed (SearchOutcome.ok []) (CompletionOutcome.raiseOther "x") "w5"
    (by decide) (by decide) (by decide)

theorem authPhase_disabled_no_token (env : Env) (verify : String → VerifyOutcome)
    (cid : String) (hjwt : jwtValidationOn env = false) :
    authPhase env verify Option.none cid = AuthStep.proceed Option.none := by
  unfold authPhase extract_bearer_token
  simp [hjwt]

/-- C6: with the auth phase passing, a malformed JSON body, a missing or
non-string `message`, and an over-length `message` each produce the 400
`Bad Request` response; the over-length message text contains
`maximum length`; and a message of exactly 4000 characters passes the
length check (the request reaches completion and returns 200 when the
backend succeeds). -/
theorem C6_body_validation_400 :
    ∀ (env : Env) (verify : String → VerifyOutcome) (backend : SearchOutcome)
      (comp : CompletionOutcome) (cid : String),
      jwtValidationOn env = false →
      (chat env verify Option.none ReqBody.malformed backend comp cid =
          errResponse 400 "Bad Request" "Invalid JSON in request body" cid) ∧
      (∀ er, chat env verify Option.none (ReqBody.obj MsgField.absent er) backend comp cid =
          badMessageResponse cid) ∧
      (∀ er, chat env verify Option.none (ReqBody.obj MsgField.notString er) backend comp cid =
          badMessageResponse cid) ∧
      ((badMessageResponse cid).status = 400 ∧
        (badMessageResponse cid).errorField = some "Bad Request") ∧
      (∀ (s : String) (er : Bool), s.length > MAX_MESSAGE_LENGTH →
          chat env verify Option.none (ReqBody.obj (MsgField.str s) er) backend comp cid =
            errResponse 400 "Bad Request"
              "Message exceeds maximum length of 4000 characters" cid) ∧
      containsSub "maximum length".data
        "Message exceeds maximum length of 4000 characters".data = true ∧
      (∀ (s answer : String) (pt ct tt : Nat), s.length = 4000 →
          (chat env verify Option.none (ReqBody.obj (MsgField.str s) false) backend
              (CompletionOutcome.ok answer pt ct tt) cid).status = 200) := by
  intro env verify backend comp cid hjwt
  have hauth := authPhase_disabled_no_token env verify cid hjwt
  refine ⟨?_, ?_, ?_, ⟨rfl, rfl⟩, ?_, by decide, ?_⟩
  · unfold chat
    rw [hauth]
  · intro er
    unfold chat
    rw [hauth]
  · intro er
    unfold chat
    rw [hauth]
  · intro s er hlen
    have hne : s.data.isEmpty = false := by
      cases hd : s.data with
      | nil =>
        rw [String.length, hd] at hlen
        simp [MAX_MESSAGE_LENGTH] at hlen
      | cons c t => rfl
    unfold chat
    rw [hauth]
    dsimp only
    rw [hne]
    simp only [Bool.false_eq_true, if_false]
    rw [if_pos hlen]
    rfl
  · intro s answer pt ct tt hlen
    have hne : s.data.isEmpty = false := by
      cases hd : s.data with
      | nil =>
        rw [String.length, hd] at hlen
        simp at hlen
      | cons c t => rfl
    have hnlen : ¬ s.length > MAX_MESSAGE_LENGTH := by
      rw [hlen]
      decide
    unfold chat
    rw [hauth]
    dsimp only
    rw [hne]
    simp only [Bool.false_eq_true, if_false]
    rw [if_neg hnlen]
    rfl

/-- Concrete 4001-character message for the C6 witness. -/
def longMsg : String := String.mk (List.replicate 4001 'a')

/-- Concrete 4000-character message for the C6 witness. -/
def msg4000 : String := String.mk (List.replicate 4000 'a')

/-- C6 witness: the over-length and exactly-4000 cases at concrete
strings, with validation disabled. -/
theorem C6_body_validation_400_witness :
    jwtValidationOn ⟨some "false", Option.none, Option.none, Option.none, Option.none⟩ = false ∧
    longMsg.length > MAX_MESSAGE_LENGTH ∧
    msg4000.length = 4000 ∧
    chat ⟨some "false", Option.none, Option.none, Option.none, Option.none⟩
        (fun _ => VerifyOutcome.invalidToken "x") Option.none
        (ReqBody.obj (MsgField.str longMsg) false) (SearchOutcome.ok [])
        (CompletionOutcome.ok "ok" 1 2 3) "w6" =
      errResponse 400 "Bad Request" "Message exceeds maximum length of 4000 characters" "w6" ∧
    (chat ⟨some "false", Option.none, Option.none, Option.none, Option.none⟩
        (fun _ => VerifyOutcome.invalidToken "x") Option.none
        (ReqBody.obj (MsgField.str msg4000) false) (SearchOutcome.ok [])
        (CompletionOutcome.ok "ok" 1 2 3) "w6").status = 200 := by
  have h1 : jwtValidationOn ⟨some "false", Option.none, Option.none, Option.none, Option.none⟩
      = false := by decide
  have h2 : longMsg.length > MAX_MESSAGE_LENGTH := by
    rw [show longMsg.length = (List.replicate 4001 'a').length from rfl,
      List.length_replicate]
    decide
  have h3 : msg4000.length = 4000 := by
    rw [show msg4000.length = (List.replicate 4000 'a').length from rfl,
      List.length_replicate]
  refine ⟨h1, h2, h3, ?_, ?_⟩
  · exact (C6_body_validation_400 ⟨some "false", Option.none, Option.none, Option.none,
      Option.none⟩ (fun _ => VerifyOutcome.invalidToken "x") (SearchOutcome.ok [])
      (CompletionOutcome.ok "ok" 1 2 3) "w6" h1).2.2.2.2.1 longMsg false h2
  · exact (C6_body_validation_400 ⟨some "false", Option.none, Option.none, Option.none,
      Option.none⟩ (fun _ => VerifyOutcome.invalidToken "x") (SearchOutcome.ok [])
      (CompletionOutcome.ok "ok" 1 2 3) "w6" h1).2.2.2.2.2.2 msg4000 "ok" 1 2 3 h3

theorem ragAndComplete_status_ne_401 (env : Env) (enableRag : Bool)
    (backend : SearchOutcome) (comp : CompletionOutcome) (cid : String) :
    (ragAndComplete env enableRag backend comp cid).status ≠ 401 := by
  unfold ragAndComplete completionResponse
  split
  · exact (by decide : (500 : Nat) ≠ 401)
  · exact (by decide : (500 : Nat) ≠ 401)
  · split
    · exact (by decide : (200 : Nat) ≠ 401)
    · exact (by decide : (500 : Nat) ≠ 401)
    · exact (by decide : (500 : Nat) ≠ 401)

/-- C7 counterexample: with validation disabled and no Authorization
header, the pipeline proceeds but `validate_jwt_token` is never invoked
and no identity is attached — the auth phase yields `proceed none`, not
the anonymous claim `{sub: "anonymous"}` the claim promises for every
header value. -/
theorem C7_absent_header_no_identity :
    authPhase ⟨some "false", Option.none, Option.none, Option.none, Option.none⟩
        (fun _ => VerifyOutcome.invalidToken "x") Option.none "w7" =
      AuthStep.proceed Option.none ∧
    AuthStep.proceed Option.none ≠
      AuthStep.proceed (some { sub := some "anonymous" }) := by
  exact ⟨by decide, by decide⟩

/-- C7 amended: when `JWT_VALIDATION_ENABLED` is not `"true"`, the chat
pipeline always proceeds past the auth phase and never returns 401; the
anonymous identity `{sub: "anonymous"}` is attached exactly when a bearer
token was presented, while an absent or non-bearer header proceeds with
no identity (validation is skipped entirely). -/
theorem C7_disabled_validation_never_401 :
    ∀ (env : Env) (verify : String → VerifyOutcome) (h : Option String)
      (body : ReqBody) (backend : SearchOutcome) (comp : CompletionOutcome) (cid : String),
      jwtValidationOn env = false →
      ((extract_bearer_token h = Option.none ∧
          authPhase env verify h cid = AuthStep.proceed Option.none) ∨
        (∃ t, extract_bearer_token h = some t ∧
          authPhase env verify h cid =
            AuthStep.proceed (some { sub := some "anonymous" }))) ∧
      (chat env verify h body backend comp cid).status ≠ 401 := by
  intro env verify h body backend comp cid hjwt
  have hval : ∀ t, validate_jwt_token env verify t =
      Except.ok { sub := some "anonymous" } := by
    intro t
    unfold validate_jwt_token
    rw [hjwt]
    rfl
  have hauth : (extract_bearer_token h = Option.none ∧
      authPhase env verify h cid = AuthStep.proceed Option.none) ∨
      (∃ t, extract_bearer_token h = some t ∧
        authPhase env verify h cid =
          AuthStep.proceed (some { sub := some "anonymous" })) := by
    cases hx : extract_bearer_token h with
    | none =>
      left
      refine ⟨rfl, ?_⟩
      unfold authPhase
      rw [hx]
      simp [hjwt]
    | some t =>
      right
      refine ⟨t, rfl, ?_⟩
      unfold authPhase
      rw [hx]
      dsimp only
      rw [hval t]
  refine ⟨hauth, ?_⟩
  unfold chat
  have hproceed : ∃ p, authPhase env verify h cid = AuthStep.proceed p := by
    rcases hauth with ⟨_, ha⟩ | ⟨t, _, ha⟩
    · exact ⟨Option.none, ha⟩
    · exact ⟨some { sub := some "anonymous" }, ha⟩
  obtain ⟨p, ha⟩ := hproceed
  rw [ha]
  cases body with
  | malformed => exact (by decide : (400 : Nat) ≠ 401)
  | obj msg er =>
    cases msg with
    | absent => exact (by decide : (400 : Nat) ≠ 401)
    | notString => exact (by decide : (400 : Nat) ≠ 401)
    | str s =>
      dsimp only
      split
      · exact (by decide : (400 : Nat) ≠ 401)
      · split
        · exact (by decide : (400 : Nat) ≠ 401)
        · exact ragAndComplete_status_ne_401 env er backend comp cid

/-- C7 amended witness: a concrete disabled-validation environment with a
bearer token present. -/
theorem C7_disabled_validation_never_401_witness :
    jwtValidationOn ⟨some "false", Option.none, Option.none, Option.none, Option.none⟩
      = false ∧
    (((extract_bearer_token (some "Bearer tok") = Option.none ∧
        authPhase ⟨some "false", Option.none, Option.none, Option.none, Option.none⟩
            (fun _ => VerifyOutcome.invalidToken "x") (some "Bearer tok") "w7b" =
          AuthStep.proceed Option.none) ∨
      (∃ t, extract_bearer_token (some "Bearer tok") = some t ∧
        authPhase ⟨some "false", Option.none, Option.none, Option.none, Option.none⟩
            (fun _ => VerifyOutcome.invalidToken "x") (some "Bearer tok") "w7b" =
          AuthStep.proceed (some { sub := some "anonymous" }))) ∧
      (chat ⟨some "false", Option.none, Option.none, Option.none, Option.none⟩
          (fun _ => VerifyOutcome.invalidToken "x") (some "Bearer tok")
          (ReqBody.obj (MsgField.str "hello") false) (SearchOutcome.ok [])
          (CompletionOutcome.ok "ok" 1 2 3) "w7b").status ≠ 401) :=
  ⟨by decide, C7_disabled_validation_never_401
    ⟨some "false", Option.none, Option.none, Option.none, Option.none⟩
    (fun _ => VerifyOutcome.invalidToken "x") (some "Bearer tok")
    (ReqBody.obj (MsgField.str "hello") false) (SearchOutcome.ok [])
    (CompletionOutcome.ok "ok" 1 2 3) "w7b" (by decide)⟩

/-- C8 counterexample: with `RAG_ENABLED="true"` and
`AZURE_SEARCH_TOP_K="abc"`, a valid chat request asking for RAG fails with
the 500 `Service Configuration Error` response even though retrieval and
completion would both succeed — `int("abc")` raises `ValueError`, so an
invalid numeric value does make the request fail.  Moreover
`JWT_VALIDATION_ENABLED="yes"` behaves as disabled, not as the documented
default (enabled). -/
theorem C8_invalid_topk_fails_request :
    (chat ⟨some "false", Option.none, Option.none, some "true", some "abc"⟩
        (fun _ => VerifyOutcome.invalidToken "x") Option.none
        (ReqBody.obj (MsgField.str "hello") true) (SearchOutcome.ok [])
        (CompletionOutcome.ok "hi" 1 1 2) "w8").status = 500 ∧
    (chat ⟨some "false", Option.none, Option.none, some "true", some "abc"⟩
        (fun _ => VerifyOutcome.invalidToken "x") Option.none
        (ReqBody.obj (MsgField.str "hello") true) (SearchOutcome.ok [])
        (CompletionOutcome.ok "hi" 1 1 2) "w8").errorField =
      some "Service Configuration Error" ∧
    pyInt "abc" = Option.none ∧
    jwtValidationOn ⟨some "yes", Option.none, Option.none, Option.none, Option.none⟩
      = false := by
  exact ⟨by decide, by decide, by decide, by decide⟩

/-- C8 amended: unset flags parse to the documented defaults (validation
on, RAG off, top-k 3); any boolean-flag value other than case-insensitive
`true` silently behaves as false — the documented default for
`RAG_ENABLED` but the opposite of the documented default for
`JWT_VALIDATION_ENABLED` — and never raises; an unparseable
`AZURE_SEARCH_TOP_K`, however, raises `ValueError` when the RAG branch
runs, and the request fails with the 500 configuration response. -/
theorem C8_flag_parsing_behaviour :
    (jwtValidationOn ⟨Option.none, Option.none, Option.none, Option.none, Option.none⟩
        = true ∧
      ragEnabledGlobal ⟨Option.none, Option.none, Option.none, Option.none, Option.none⟩
        = false ∧
      pyInt (getenvD (Option.none : Option String) "3") = some 3) ∧
    (∀ (v : String) (env : Env), env.ragEnabled = some v → strLower v ≠ "true" →
      ragEnabledGlobal env = false) ∧
    (∀ (v : String) (env : Env), env.jwtValidationEnabled = some v → strLower v ≠ "true" →
      jwtValidationOn env = false) ∧
    (∀ (env : Env) (verify : String → VerifyOutcome) (h : Option String) (s : String)
       (backend : SearchOutcome) (comp : CompletionOutcome) (cid : String),
      jwtValidationOn env = false →
      extract_bearer_token h = Option.none →
      s.data.isEmpty = false →
      s.length ≤ MAX_MESSAGE_LENGTH →
      ragEnabledGlobal env = true →
      pyInt (getenvD env.azureSearchTopK "3") = Option.none →
      chat env verify h (ReqBody.obj (MsgField.str s) true) backend comp cid =
        configErrorResponse cid) := by
  refine ⟨⟨by decide, by decide, by decide⟩, ?_, ?_, ?_⟩
  · intro v env hv hneq
    unfold ragEnabledGlobal getenvD
    rw [hv]
    exact beq_eq_false_iff_ne.mpr hneq
  · intro v env hv hneq
    unfold jwtValidationOn getenvD
    rw [hv]
    exact beq_eq_false_iff_ne.mpr hneq
  · intro env verify h s backend comp cid hjwt hx hne hlen hrag htopk
    have hnlen : ¬ s.length > MAX_MESSAGE_LENGTH := by
      unfold MAX_MESSAGE_LENGTH at *
      omega
    unfold chat authPhase ragAndComplete ragPhase
    rw [hx]
    simp [hjwt, hne, hnlen, hrag, htopk]

/-- C8 amended witness: invalid flag value `yes` and unparseable top-k
`abc` at a concrete request. -/
theorem C8_flag_parsing_behaviour_witness :
    ((⟨Option.none, Option.none, Option.none, some "yes", Option.none⟩ : Env).ragEnabled
        = some "yes" ∧
      strLower "yes" ≠ "true" ∧
      ragEnabledGlobal ⟨Option.none, Option.none, Option.none, some "yes", Option.none⟩
        = false) ∧
    (jwtValidationOn ⟨some "false", Option.none, Option.none, some "true", some "abc"⟩
        = false ∧
      extract_bearer_token Option.none = Option.none ∧
      "hello".data.isEmpty = false ∧
      "hello".length ≤ MAX_MESSAGE_LENGTH ∧
      ragEnabledGlobal ⟨some "false", Option.none, Option.none, some "true", some "abc"⟩
        = true ∧
      pyInt (getenvD (some "abc") "3") = Option.none ∧
      chat ⟨some "false", Option.none, Option.none, some "true", some "abc"⟩
          (fun _ => VerifyOutcome.invalidToken "x") Option.none
          (ReqBody.obj (MsgField.str "hello") true) (SearchOutcome.ok [])
          (CompletionOutcome.ok "hi" 1 1 2) "w8b" =
        configErrorResponse "w8b") := by
  refine ⟨⟨rfl, by decide, ?_⟩, by decide, by decide, by decide, by decide, by decide,
    by decide, ?_⟩
  · exact C8_flag_parsing_behaviour.2.1 "yes"
      ⟨Option.none, Option.none, Option.none, some "yes", Option.none⟩ rfl (by decide)
  · exact C8_flag_parsing_behaviour.2.2.2
      ⟨some "false", Option.none, Option.none, some "true", some "abc"⟩
      (fun _ => VerifyOutcome.invalidToken "x") Option.none "hello" (SearchOutcome.ok [])
      (CompletionOutcome.ok "hi" 1 1 2) "w8b" (by decide) (by decide) (by decide)
      (by decide) (by decide) (by decide)
